import Mathlib

/-!
Shallow embedding of the Interactive Graph Plotter's core pipeline
(the `Graph` component: literal series parsing, expression sampling,
series building with error state, and the chart data adapter).

JavaScript numbers are modelled by `JSNum`: a rational for every finite
value, plus distinguished `nan`, `posInf`, `negInf` values, so that the
source's `isNaN` / `isFinite` filters and `Math.min` / `Math.abs`
arithmetic can be expressed faithfully.  The external expression
evaluator (`math.evaluate`) is an abstract parameter: a function from
the expression text and the binding for `x` to either a raised error or
a value.  The sampling `for` loop is embedded with explicit fuel; a
`none` result means the fuel bound was exceeded, and the development
proves that for a positive step a computable fuel bound always
suffices, while for a non-positive step no finite fuel ever does
(the source loop diverges).
-/

namespace GraphPlotter

/-- Model of a JavaScript number: a finite rational, an infinity, or NaN. -/
inductive JSNum where
  | num (q : ℚ)
  | posInf
  | negInf
  | nan
deriving DecidableEq, Repr

namespace JSNum

/-- JavaScript `isNaN`. -/
def isNaN : JSNum → Bool
  | nan => true
  | _ => false

/-- JavaScript `isFinite`. -/
def isFinite : JSNum → Bool
  | num _ => true
  | _ => false

end JSNum

/-- JavaScript `Math.abs`. -/
def jsAbs : JSNum → JSNum
  | JSNum.num q => JSNum.num |q|
  | JSNum.posInf => JSNum.posInf
  | JSNum.negInf => JSNum.posInf
  | JSNum.nan => JSNum.nan

/-- JavaScript multiplication on numbers (NaN propagates; infinity times
zero is NaN, otherwise signs multiply). -/
def jsMul : JSNum → JSNum → JSNum
  | JSNum.nan, _ => JSNum.nan
  | _, JSNum.nan => JSNum.nan
  | JSNum.num a, JSNum.num b => JSNum.num (a * b)
  | JSNum.posInf, JSNum.num b =>
      if 0 < b then JSNum.posInf else if b < 0 then JSNum.negInf else JSNum.nan
  | JSNum.negInf, JSNum.num b =>
      if 0 < b then JSNum.negInf else if b < 0 then JSNum.posInf else JSNum.nan
  | JSNum.num a, JSNum.posInf =>
      if 0 < a then JSNum.posInf else if a < 0 then JSNum.negInf else JSNum.nan
  | JSNum.num a, JSNum.negInf =>
      if 0 < a then JSNum.negInf else if a < 0 then JSNum.posInf else JSNum.nan
  | JSNum.posInf, JSNum.posInf => JSNum.posInf
  | JSNum.posInf, JSNum.negInf => JSNum.negInf
  | JSNum.negInf, JSNum.posInf => JSNum.negInf
  | JSNum.negInf, JSNum.negInf => JSNum.posInf

/-- JavaScript `Math.min` (NaN if either argument is NaN). -/
def jsMin : JSNum → JSNum → JSNum
  | JSNum.nan, _ => JSNum.nan
  | _, JSNum.nan => JSNum.nan
  | JSNum.negInf, _ => JSNum.negInf
  | _, JSNum.negInf => JSNum.negInf
  | JSNum.posInf, b => b
  | a, JSNum.posInf => a
  | JSNum.num a, JSNum.num b => JSNum.num (min a b)

/-- JavaScript `toLowerCase` on one character (ASCII range; the
expressions the plotter handles are ASCII). -/
def jsToLowerChar (c : Char) : Char :=
  if 'A' ≤ c ∧ c ≤ 'Z' then Char.ofNat (c.toNat + 32) else c

/-- JavaScript `String.prototype.toLowerCase`. -/
def jsToLower (s : String) : String :=
  ⟨s.data.map jsToLowerChar⟩

/-- JavaScript `String.prototype.trim`: drop whitespace from both ends. -/
def jsTrim (s : String) : String :=
  ⟨((s.data.dropWhile Char.isWhitespace).reverse.dropWhile
      Char.isWhitespace).reverse⟩

/-- Accumulating worker for `splitComma`. -/
def splitCommaAux : List Char → List Char → List String
  | [], acc => [⟨acc.reverse⟩]
  | c :: cs, acc =>
    if c = ',' then ⟨acc.reverse⟩ :: splitCommaAux cs []
    else splitCommaAux cs (c :: acc)

/-- JavaScript `String.prototype.split(',')`: the empty string yields
`[""]`, and every comma separates two (possibly empty) tokens. -/
def splitComma (s : String) : List String :=
  splitCommaAux s.data []

/-- Consume an optional leading sign; `true` means negative. -/
def readSign : List Char → Bool × List Char
  | '-' :: cs => (true, cs)
  | '+' :: cs => (false, cs)
  | cs => (false, cs)

/-- Consume a maximal run of decimal digits. -/
def takeDigits : List Char → List Char × List Char
  | [] => ([], [])
  | c :: cs =>
    if c.isDigit then
      let p := takeDigits cs
      (c :: p.1, p.2)
    else ([], c :: cs)

/-- Numeric value of a digit run. -/
def digitsToNat (ds : List Char) : Nat :=
  ds.foldl (fun n c => 10 * n + (c.toNat - 48)) 0

/-- Exponent digits after the `e`/`E` marker; an `e` not followed by at
least one digit is ignored (value `0`), matching `parseFloat`'s
longest-valid-prefix rule. -/
def readExpAfterE (cs : List Char) : Int :=
  let p := readSign cs
  let d := takeDigits p.2
  if d.1.isEmpty then 0
  else if p.1 then -(digitsToNat d.1 : Int) else (digitsToNat d.1 : Int)

/-- Optional exponent part of a decimal literal. -/
def readExp : List Char → Int
  | 'e' :: cs => readExpAfterE cs
  | 'E' :: cs => readExpAfterE cs
  | _ => 0

/-- Model of JavaScript `parseFloat`: skip leading whitespace, read an
optional sign, then either the literal `Infinity` or a decimal mantissa
`digits [. digits] [exponent]` whose longest valid prefix is taken;
if no digit is found at all the result is NaN.  (Negative zero is
identified with zero.) -/
def parseFloat (s : String) : JSNum :=
  let cs0 := s.data.dropWhile (fun c => c.isWhitespace)
  let sp := readSign cs0
  match sp.2 with
  | 'I' :: 'n' :: 'f' :: 'i' :: 'n' :: 'i' :: 't' :: 'y' :: _ =>
      if sp.1 then JSNum.negInf else JSNum.posInf
  | cs =>
      let ip := takeDigits cs
      let fp :=
        match ip.2 with
        | '.' :: t => takeDigits t
        | _ => ([], ip.2)
      if ip.1.isEmpty && fp.1.isEmpty then JSNum.nan
      else
        let mant : ℚ := (digitsToNat (ip.1 ++ fp.1) : ℚ) / 10 ^ fp.1.length
        let e : Int := readExp fp.2
        let v : ℚ := mant * 10 ^ e
        JSNum.num (if sp.1 then -v else v)

/-- The literal series parser of the `Graph` component:
`data.split(',').map(val => parseFloat(val.trim())).filter(val => !isNaN(val))`. -/
def parseData (data : String) : List JSNum :=
  ((splitComma data).map (fun val => parseFloat (jsTrim val))).filter
    (fun val => ! val.isNaN)

/-- The eleven graph-kind tags of `GraphType`. -/
inductive GraphType where
  | line
  | bar
  | scatter
  | pie
  | doughnut
  | radar
  | area
  | histogram
  | bubble
  | step
  | polar
deriving DecidableEq, BEq, Repr

/-- The `GraphControls` record.  `xMin`, `xMax`, `step` are finite
JavaScript numbers, modelled as rationals. -/
structure GraphControls where
  type : GraphType
  equation : String
  data : String
  xMin : ℚ
  xMax : ℚ
  step : ℚ
deriving DecidableEq, Repr

/-- The equation-based family test:
`['line', 'area', 'scatter', 'bubble', 'step'].includes(controls.type)`. -/
def equationBased (t : GraphType) : Bool :=
  [GraphType.line, GraphType.area, GraphType.scatter, GraphType.bubble,
    GraphType.step].contains t

/-- One retained sample: the domain value `x`, the evaluated `y`, and
the one-decimal label pushed for it. -/
structure Sample where
  x : ℚ
  y : JSNum
  label : String
deriving DecidableEq, Repr

/-- JavaScript `toFixed(1)` on a non-negative rational: round to the
nearest tenth, ties away from zero. -/
def toFixed1Abs (q : ℚ) : String :=
  let n := (⌊q * 10 + 1 / 2⌋).toNat
  toString (n / 10) ++ "." ++ toString (n % 10)

/-- JavaScript `Number.prototype.toFixed(1)` (for the magnitudes the
plotter works with; the exponential-notation regime above `10^21` is
out of the modelled range). -/
def toFixed1 (q : ℚ) : String :=
  if q < 0 then "-" ++ toFixed1Abs (-q) else toFixed1Abs q

/-- The external evaluator `math.evaluate(expr, { x })`: it either
raises (modelled by `Except.error`) or returns a value.  A non-numeric
result of the real evaluator is represented by `nan`, which the
sampling filter discards exactly as the source's `isNaN` test does. -/
def Evaluator : Type := String → JSNum → Except Unit JSNum

/-- One iteration body of the sampling loop: evaluate at `x`, keep the
sample when the evaluation does not raise and the value is finite
(`!isNaN(y) && isFinite(y)`), recording the `toFixed(1)` label. -/
def sampleAt (ev : Evaluator) (expr : String) (x : ℚ) : Option Sample :=
  match ev expr (JSNum.num x) with
  | Except.error _ => none
  | Except.ok y =>
      if ! y.isNaN && y.isFinite then some ⟨x, y, toFixed1 x⟩ else none

/-- The source loop `for (let x = xMin; x <= xMax; x += step)` with
explicit fuel.  `none` means the fuel ran out before the loop condition
failed; the loop itself has no step-sign guard, so for a non-positive
step and `xMin ≤ xMax` every finite fuel is exhausted (divergence). -/
def sampleLoop (ev : Evaluator) (expr : String) (xMax stp : ℚ) :
    Nat → ℚ → Option (List Sample)
  | 0, x => if xMax < x then some [] else none
  | fuel + 1, x =>
    if xMax < x then some []
    else
      match sampleLoop ev expr xMax stp fuel (x + stp) with
      | none => none
      | some tail =>
        match sampleAt ev expr x with
        | some s => some (s :: tail)
        | none => some tail

/-- Number of iterations the loop performs from `xMin` when the step is
positive: `⌊(xMax - xMin) / step⌋ + 1` points, none when the range is
empty. -/
def numPts (xMin xMax stp : ℚ) : Nat :=
  if xMin ≤ xMax then (⌊(xMax - xMin) / stp⌋).toNat + 1 else 0

/-- The domain points the loop visits (for a positive step):
`xMin, xMin + step, ...` while `≤ xMax`. -/
def domainPoints (xMin xMax stp : ℚ) : List ℚ :=
  (List.range (numPts xMin xMax stp)).map
    (fun k : ℕ => xMin + (k : ℚ) * stp)

/-- The list of retained samples: the per-point evaluations over the
visited domain points, with failing or non-finite points dropped. -/
def sampledList (ev : Evaluator) (expr : String) (xMin xMax stp : ℚ) :
    List Sample :=
  (domainPoints xMin xMax stp).filterMap (sampleAt ev expr)

/-- Fuel budget handed to the loop; one more than the iteration count,
so it is sufficient whenever the step is positive. -/
def sampleFuel (c : GraphControls) : Nat :=
  numPts c.xMin c.xMax c.step + 1

/-- The normalized expression: `controls.equation.toLowerCase().trim()`. -/
def normExpr (c : GraphControls) : String :=
  jsTrim (jsToLower c.equation)

/-- Output of the series-building memo: the `points`, `labels` and
`scatterData` arrays together with the error state the run sets. -/
structure BuildOut where
  points : List JSNum
  labels : List String
  scatterData : List (ℚ × JSNum)
  error : Option String
deriving DecidableEq, Repr

/-- The series builder of the `Graph` component (the `useMemo` that
computes `points`, `labels`, `scatterData` and drives `setError`).
A `none` result models the run that never finishes (non-positive step
over a non-empty range). -/
def buildSeries (ev : Evaluator) (c : GraphControls) : Option BuildOut :=
  if equationBased c.type = false then
    let data := parseData c.data
    if data = [] then
      some ⟨[], [], [], some "Please enter valid comma-separated numbers"⟩
    else
      some ⟨data,
        data.enum.map (fun p => "Value " ++ toString (p.1 + 1)),
        data.enum.map (fun p => ((p.1 : ℚ), p.2)),
        none⟩
  else
    let expr := normExpr c
    if expr = "" then
      some ⟨[], [], [], some "Please enter an equation"⟩
    else
      match ev expr (JSNum.num 1) with
      | Except.error _ => some ⟨[], [], [], some "Invalid equation format"⟩
      | Except.ok _ =>
        match sampleLoop ev expr c.xMax c.step (sampleFuel c) c.xMin with
        | none => none
        | some samples =>
          if samples = [] then
            some ⟨[], [], [], some "No valid points generated"⟩
          else
            some ⟨samples.map Sample.y, samples.map Sample.label,
              samples.map (fun s => (s.x, s.y)), none⟩

/-- One point of the scatter/bubble dataset: the `{x, y, r}` object the
adapter builds. -/
structure BubblePoint where
  x : ℚ
  y : JSNum
  r : JSNum
deriving DecidableEq, Repr

/-- The structural payload of the adapter's output, one constructor per
branch of the source `switch` (styling constants are presentation data
and are not part of the model; the dynamic dataset label
`controls.equation || 'Values'` is kept where the source computes it). -/
inductive ChartDataSet where
  | lineLike (dsLabel : String) (labels : List String) (data : List JSNum)
  | barLike (labels : List String) (data : List JSNum)
  | scatterLike (dsLabel : String) (data : List BubblePoint)
  | pieLike (labels : List String) (data : List JSNum)
  | radarLike (labels : List String) (data : List JSNum)
deriving DecidableEq, Repr

/-- JavaScript `a || b` on strings (empty string is falsy). -/
def jsOr (s dflt : String) : String :=
  if s = "" then dflt else s

/-- The chart data adapter (the `chartData` memo): maps the graph kind
and the intermediate arrays to the dataset shape of its `switch` branch.
For scatter/bubble each point gets
`r: controls.type === 'bubble' ? Math.min(Math.abs(point.y) * 2, 20) : 4`. -/
def chartData (t : GraphType) (equation : String) (points : List JSNum)
    (labels : List String) (scatterData : List (ℚ × JSNum)) : ChartDataSet :=
  match t with
  | GraphType.line | GraphType.area | GraphType.step =>
      ChartDataSet.lineLike (jsOr equation "Values") labels points
  | GraphType.bar | GraphType.histogram =>
      ChartDataSet.barLike labels points
  | GraphType.scatter | GraphType.bubble =>
      ChartDataSet.scatterLike (jsOr equation "Values")
        (scatterData.map (fun p =>
          ⟨p.1, p.2,
            if t = GraphType.bubble then
              jsMin (jsMul (jsAbs p.2) (JSNum.num 2)) (JSNum.num 20)
            else JSNum.num 4⟩))
  | GraphType.pie | GraphType.doughnut | GraphType.polar =>
      ChartDataSet.pieLike labels points
  | GraphType.radar =>
      ChartDataSet.radarLike labels points

/-- The whole pipeline: build the series, then adapt it; the adapter
memo reads `points`, `labels`, `scatterData`, `controls.type` and
`controls.equation`. -/
def pipeline (ev : Evaluator) (c : GraphControls) :
    Option (BuildOut × ChartDataSet) :=
  (buildSeries ev c).map
    (fun o => (o, chartData c.type c.equation o.points o.labels o.scatterData))

/-- Evaluator model for the expression `x^2`: total on numbers, raising
on any other expression text. -/
def evalSq : Evaluator := fun e n =>
  if e = "x^2" then
    match n with
    | JSNum.num q => Except.ok (JSNum.num (q * q))
    | _ => Except.ok JSNum.nan
  else Except.error ()

/-- Evaluator model for the expression `log(x)`: a finite value for
positive arguments, a non-finite result (complex/`-Infinity`, both
failing the source's `isNaN`/`isFinite` filter) otherwise. -/
def evalLogLike : Evaluator := fun e n =>
  if e = "log(x)" then
    match n with
    | JSNum.num q =>
        if 0 < q then Except.ok (JSNum.num (q * 2)) else Except.ok JSNum.nan
    | _ => Except.ok JSNum.nan
  else Except.error ()

/-- Evaluator model for a malformed expression: every evaluation raises. -/
def evalRaise : Evaluator := fun _ _ => Except.error ()

/-- Evaluator model that returns `0` for every input. -/
def evalZero : Evaluator := fun _ _ => Except.ok (JSNum.num 0)

/-- Controls for the spec example `x^2` over `[-2, 2]` with step `1`. -/
def cSquare : GraphControls :=
  ⟨GraphType.line, "x^2", "", -2, 2, 1⟩

/-- Controls for the spec example `log(x)` over `[-1, 1]` with step `0.5`. -/
def cLog : GraphControls :=
  ⟨GraphType.scatter, "log(x)", "", -1, 1, 1/2⟩

/-- Controls for the spec example of a malformed equation. -/
def cBogus : GraphControls :=
  ⟨GraphType.line, "1/0*bogus(", "", -10, 10, 1/10⟩

/-- Controls for the spec example `{type:'bar', data:""}`. -/
def cBarEmpty : GraphControls :=
  ⟨GraphType.bar, "sin(x)", "", -10, 10, 1/10⟩

/-- Literal-family controls with well-formed data. -/
def cBarData : GraphControls :=
  ⟨GraphType.bar, "", "10, 20, 30, 40, 50", -10, 10, 1/10⟩

/-- A second record with the same field values as `cBarData`. -/
def cBarDataTwin : GraphControls :=
  ⟨GraphType.bar, "", "10, 20, 30, 40, 50", -10, 10, 1/10⟩

/-- An equation-family input with step `0` over a non-empty range. -/
def cZeroStep : GraphControls :=
  ⟨GraphType.line, "x", "", 0, 1, 0⟩

attribute [local semireducible] Rat.mul Rat.add Rat.sub Rat.inv

/-! Helper lemmas about the sampling loop. -/

theorem sampleLoop_none_of_nonpos (ev : Evaluator) (expr : String)
    {xMax stp : ℚ} (hs : stp ≤ 0) :
    ∀ fuel (x : ℚ), x ≤ xMax → sampleLoop ev expr xMax stp fuel x = none := by
  intro fuel
  induction fuel with
  | zero =>
    intro x hx
    simp only [sampleLoop, if_neg (not_lt.mpr hx)]
  | succ n ih =>
    intro x hx
    have hx' : x + stp ≤ xMax := by linarith
    simp only [sampleLoop, if_neg (not_lt.mpr hx), ih (x + stp) hx']

theorem sampleLoop_nil_of_gt (ev : Evaluator) (expr : String)
    {x xMax stp : ℚ} (hx : xMax < x) (fuel : Nat) :
    sampleLoop ev expr xMax stp fuel x = some [] := by
  cases fuel <;> simp [sampleLoop, if_pos hx]

theorem numPts_of_gt {x xMax stp : ℚ} (hx : xMax < x) :
    numPts x xMax stp = 0 := by
  unfold numPts
  rw [if_neg (not_le.mpr hx)]

theorem numPts_succ {x xMax stp : ℚ} (hs : 0 < stp) (hx : x ≤ xMax) :
    numPts x xMax stp = numPts (x + stp) xMax stp + 1 := by
  unfold numPts
  rw [if_pos hx]
  by_cases h2 : x + stp ≤ xMax
  · rw [if_pos h2]
    have hne : stp ≠ 0 := ne_of_gt hs
    have hdiv : (xMax - (x + stp)) / stp = (xMax - x) / stp - 1 := by
      rw [show xMax - (x + stp) = xMax - x - stp by ring, sub_div, div_self hne]
    have hfloor : ⌊(xMax - (x + stp)) / stp⌋ = ⌊(xMax - x) / stp⌋ - 1 := by
      rw [hdiv]
      exact_mod_cast Int.floor_sub_int ((xMax - x) / stp) 1
    have hone : (1 : ℤ) ≤ ⌊(xMax - x) / stp⌋ := by
      apply Int.le_floor.mpr
      push_cast
      rw [le_div_iff hs]
      linarith
    omega
  · rw [if_neg h2]
    have h0 : ⌊(xMax - x) / stp⌋ = 0 := by
      rw [Int.floor_eq_zero_iff, Set.mem_Ico]
      refine ⟨div_nonneg (by linarith) hs.le, ?_⟩
      rw [div_lt_one hs]
      linarith
    omega

theorem sampledList_nil {ev : Evaluator} {expr : String} {x xMax stp : ℚ}
    (hx : xMax < x) : sampledList ev expr x xMax stp = [] := by
  unfold sampledList domainPoints
  rw [numPts_of_gt hx]
  rfl

theorem sampledList_cons (ev : Evaluator) (expr : String) {x xMax stp : ℚ}
    (hs : 0 < stp) (hx : x ≤ xMax) :
    sampledList ev expr x xMax stp =
      match sampleAt ev expr x with
      | some s => s :: sampledList ev expr (x + stp) xMax stp
      | none => sampledList ev expr (x + stp) xMax stp := by
  unfold sampledList domainPoints
  rw [numPts_succ hs hx, List.range_succ_eq_map, List.map_cons,
    List.filterMap_cons, List.map_map]
  have h0 : x + ((0 : ℕ) : ℚ) * stp = x := by push_cast; ring
  have hsh : ((fun k : ℕ => x + (k : ℚ) * stp) ∘ Nat.succ) =
      (fun k : ℕ => (x + stp) + (k : ℚ) * stp) := by
    funext k
    simp only [Function.comp]
    push_cast
    ring
  rw [h0, hsh]
  cases sampleAt ev expr x <;> rfl

theorem sampleLoop_eq (ev : Evaluator) (expr : String) {xMax stp : ℚ}
    (hs : 0 < stp) :
    ∀ fuel (x : ℚ), numPts x xMax stp ≤ fuel →
      sampleLoop ev expr xMax stp fuel x =
        some (sampledList ev expr x xMax stp) := by
  intro fuel
  induction fuel with
  | zero =>
    intro x hle
    have hx : xMax < x := by
      by_contra h
      push_neg at h
      rw [numPts_succ hs h] at hle
      omega
    simp only [sampleLoop, if_pos hx, sampledList_nil hx]
  | succ n ih =>
    intro x hle
    by_cases hx : x ≤ xMax
    · have hrec := numPts_succ hs hx
      have hle' : numPts (x + stp) xMax stp ≤ n := by omega
      have ihx := ih (x + stp) hle'
      simp only [sampleLoop, if_neg (not_lt.mpr hx), ihx,
        sampledList_cons ev expr hs hx]
      cases sampleAt ev expr x <;> rfl
    · have hx' : xMax < x := not_le.mp hx
      simp only [sampleLoop, if_pos hx', sampledList_nil hx']

theorem mem_domainPoints {stp : ℚ} (hs : 0 < stp) {x xMin xMax : ℚ} :
    x ∈ domainPoints xMin xMax stp ↔
      ∃ k : ℕ, x = xMin + (k : ℚ) * stp ∧ x ≤ xMax := by
  unfold domainPoints
  simp only [List.mem_map, List.mem_range]
  constructor
  · rintro ⟨k, hk, rfl⟩
    refine ⟨k, rfl, ?_⟩
    unfold numPts at hk
    by_cases hxx : xMin ≤ xMax
    · rw [if_pos hxx] at hk
      have hf0 : 0 ≤ ⌊(xMax - xMin) / stp⌋ :=
        Int.floor_nonneg.mpr (div_nonneg (by linarith) hs.le)
      have hkle : (k : ℤ) ≤ ⌊(xMax - xMin) / stp⌋ := by omega
      have hkq := Int.le_floor.mp hkle
      rw [le_div_iff hs] at hkq
      push_cast at hkq
      linarith
    · rw [if_neg hxx] at hk
      omega
  · rintro ⟨k, rfl, hle⟩
    refine ⟨k, ?_, rfl⟩
    have hks : (0 : ℚ) ≤ (k : ℚ) * stp :=
      mul_nonneg (Nat.cast_nonneg k) hs.le
    have hxx : xMin ≤ xMax := by linarith
    have h1 : (((k : ℤ)) : ℚ) ≤ (xMax - xMin) / stp := by
      rw [le_div_iff hs]
      push_cast
      linarith
    have h2 : (k : ℤ) ≤ ⌊(xMax - xMin) / stp⌋ := Int.le_floor.mpr h1
    unfold numPts
    rw [if_pos hxx]
    omega

/-! Helper lemmas characterizing the branches of `buildSeries`. -/

theorem buildSeries_literal_empty (ev : Evaluator) {c : GraphControls}
    (h1 : equationBased c.type = false) (h2 : parseData c.data = []) :
    buildSeries ev c =
      some ⟨[], [], [], some "Please enter valid comma-separated numbers"⟩ := by
  unfold buildSeries
  rw [if_pos h1]
  simp [h2]

theorem buildSeries_literal (ev : Evaluator) {c : GraphControls}
    (h1 : equationBased c.type = false) (h2 : parseData c.data ≠ []) :
    buildSeries ev c =
      some ⟨parseData c.data,
        (parseData c.data).enum.map (fun p => "Value " ++ toString (p.1 + 1)),
        (parseData c.data).enum.map (fun p => ((p.1 : ℚ), p.2)),
        none⟩ := by
  unfold buildSeries
  rw [if_pos h1]
  simp only [if_neg h2]

theorem buildSeries_empty_expr (ev : Evaluator) {c : GraphControls}
    (h1 : equationBased c.type = true) (h2 : normExpr c = "") :
    buildSeries ev c = some ⟨[], [], [], some "Please enter an equation"⟩ := by
  unfold buildSeries
  rw [if_neg (by simp [h1]), if_pos h2]

theorem buildSeries_invalid_expr (ev : Evaluator) {c : GraphControls}
    (h1 : equationBased c.type = true) (h2 : normExpr c ≠ "") {e : Unit}
    (h3 : ev (normExpr c) (JSNum.num 1) = Except.error e) :
    buildSeries ev c = some ⟨[], [], [], some "Invalid equation format"⟩ := by
  unfold buildSeries
  rw [if_neg (by simp [h1]), if_neg h2, h3]

theorem buildSeries_no_points (ev : Evaluator) {c : GraphControls}
    (h1 : equationBased c.type = true) (h2 : normExpr c ≠ "") {v : JSNum}
    (h3 : ev (normExpr c) (JSNum.num 1) = Except.ok v) (hs : 0 < c.step)
    (h4 : sampledList ev (normExpr c) c.xMin c.xMax c.step = []) :
    buildSeries ev c = some ⟨[], [], [], some "No valid points generated"⟩ := by
  unfold buildSeries
  rw [if_neg (by simp [h1]), if_neg h2, h3,
    sampleLoop_eq ev (normExpr c) hs (sampleFuel c) c.xMin (Nat.le_succ _),
    h4]
  rfl

theorem buildSeries_sampled (ev : Evaluator) {c : GraphControls}
    (h1 : equationBased c.type = true) (h2 : normExpr c ≠ "") {v : JSNum}
    (h3 : ev (normExpr c) (JSNum.num 1) = Except.ok v) (hs : 0 < c.step)
    (h4 : sampledList ev (normExpr c) c.xMin c.xMax c.step ≠ []) :
    buildSeries ev c =
      some ⟨(sampledList ev (normExpr c) c.xMin c.xMax c.step).map Sample.y,
        (sampledList ev (normExpr c) c.xMin c.xMax c.step).map Sample.label,
        (sampledList ev (normExpr c) c.xMin c.xMax c.step).map
          (fun s => (s.x, s.y)),
        none⟩ := by
  unfold buildSeries
  rw [if_neg (by simp [h1]), if_neg h2, h3,
    sampleLoop_eq ev (normExpr c) hs (sampleFuel c) c.xMin (Nat.le_succ _)]
  simp only [if_neg h4]

theorem mem_sampledList {ev : Evaluator} {expr : String}
    {xMin xMax stp : ℚ} {s : Sample} :
    s ∈ sampledList ev expr xMin xMax stp ↔
      ∃ x ∈ domainPoints xMin xMax stp, sampleAt ev expr x = some s := by
  unfold sampledList
  exact List.mem_filterMap

/-! Claim theorems. -/

/-- C1: the claim states that a non-positive `step` is rejected before
the sampling iteration begins and that sampling terminates for every
input.  The code has no such rejection: this theorem shows that for any
expression-family input passing validation, with `step ≤ 0` and
`xMin ≤ xMax`, no fuel bound ever completes the loop (the source's
`for (let x = xMin; x <= xMax; x += step)` runs forever), and the build
produces no result at all. -/
theorem c1_nonpositive_step_diverges (ev : Evaluator) (c : GraphControls)
    (h1 : equationBased c.type = true) (h2 : normExpr c ≠ "") (v : JSNum)
    (h3 : ev (normExpr c) (JSNum.num 1) = Except.ok v)
    (h4 : c.step ≤ 0) (h5 : c.xMin ≤ c.xMax) (fuel : Nat) :
    sampleLoop ev (normExpr c) c.xMax c.step fuel c.xMin = none ∧
      buildSeries ev c = none := by
  refine ⟨sampleLoop_none_of_nonpos ev (normExpr c) h4 fuel c.xMin h5, ?_⟩
  unfold buildSeries
  rw [if_neg (by simp [h1]), if_neg h2, h3,
    sampleLoop_none_of_nonpos ev (normExpr c) h4 (sampleFuel c) c.xMin h5]

/-- Witness for C1 at the concrete input `step = 0`, `xMin = 0`,
`xMax = 1`, equation `x` (fuel bound `100`). -/
theorem c1_witness :
    sampleLoop evalZero (normExpr cZeroStep) cZeroStep.xMax cZeroStep.step
        100 cZeroStep.xMin = none ∧
      buildSeries evalZero cZeroStep = none :=
  c1_nonpositive_step_diverges evalZero cZeroStep (by decide) (by decide)
    (JSNum.num 0) rfl (by decide) (by decide) 100

/-- C2: whenever the build produces a result, exactly one of
{the series is non-empty, the error state is set} holds: the points are
non-empty iff the error is cleared. -/
theorem c2_series_error_dichotomy (ev : Evaluator) (c : GraphControls)
    (out : BuildOut) (h : buildSeries ev c = some out) :
    out.points ≠ [] ↔ out.error = none := by
  by_cases h1 : equationBased c.type = false
  · by_cases h2 : parseData c.data = []
    · rw [buildSeries_literal_empty ev h1 h2] at h
      injection h with h
      subst h
      simp
    · rw [buildSeries_literal ev h1 h2] at h
      injection h with h
      subst h
      simpa using h2
  · have h1' : equationBased c.type = true := by
      revert h1
      cases equationBased c.type <;> simp
    by_cases h2 : normExpr c = ""
    · rw [buildSeries_empty_expr ev h1' h2] at h
      injection h with h
      subst h
      simp
    · cases hev : ev (normExpr c) (JSNum.num 1) with
      | error e =>
        rw [buildSeries_invalid_expr ev h1' h2 hev] at h
        injection h with h
        subst h
        simp
      | ok v =>
        by_cases hs : 0 < c.step
        · by_cases h4 :
              sampledList ev (normExpr c) c.xMin c.xMax c.step = []
          · rw [buildSeries_no_points ev h1' h2 hev hs h4] at h
            injection h with h
            subst h
            simp
          · rw [buildSeries_sampled ev h1' h2 hev hs h4] at h
            injection h with h
            subst h
            simpa using h4
        · by_cases h5 : c.xMin ≤ c.xMax
          · exfalso
            have hnone : buildSeries ev c = none := by
              unfold buildSeries
              rw [if_neg (by simp [h1']), if_neg h2, hev,
                sampleLoop_none_of_nonpos ev (normExpr c) (not_lt.mp hs)
                  (sampleFuel c) c.xMin h5]
            rw [hnone] at h
            exact Option.noConfusion h
          · have hres : buildSeries ev c =
                some ⟨[], [], [], some "No valid points generated"⟩ := by
              unfold buildSeries
              rw [if_neg (by simp [h1']), if_neg h2, hev,
                sampleLoop_nil_of_gt ev (normExpr c) (not_le.mp h5)
                  (sampleFuel c)]
              rfl
            rw [hres] at h
            injection h with h
            subst h
            simp

/-- Witness for C2 at a concrete literal-family input with well-formed
data. -/
theorem c2_witness :
    ([JSNum.num 10, JSNum.num 20, JSNum.num 30, JSNum.num 40,
        JSNum.num 50] ≠ ([] : List JSNum)) ↔
      (none : Option String) = none :=
  c2_series_error_dichotomy evalZero cBarData
    ⟨[JSNum.num 10, JSNum.num 20, JSNum.num 30, JSNum.num 40, JSNum.num 50],
      ["Value 1", "Value 2", "Value 3", "Value 4", "Value 5"],
      [(0, JSNum.num 10), (1, JSNum.num 20), (2, JSNum.num 30),
        (3, JSNum.num 40), (4, JSNum.num 50)],
      none⟩ (by decide)

/-- C3: the literal parser splits on commas, trims each token, parses it
as a floating-point number, and keeps exactly the successfully parsed
tokens in order, silently dropping failing (NaN) tokens; in particular
`parse("a, 5, , 7.5") = [5, 7.5]` and
`parse("10, 20, 30, 40, 50") = [10, 20, 30, 40, 50]`. -/
theorem c3_parse_exact :
    parseData "a, 5, , 7.5" = [JSNum.num 5, JSNum.num (15/2)] ∧
    parseData "10, 20, 30, 40, 50" =
      [JSNum.num 10, JSNum.num 20, JSNum.num 30, JSNum.num 40,
        JSNum.num 50] ∧
    ∀ s : String, parseData s =
      (splitComma s).filterMap (fun t =>
        match parseFloat (jsTrim t) with
        | JSNum.nan => none
        | v => some v) := by
  refine ⟨by decide, by decide, ?_⟩
  intro s
  unfold parseData
  induction splitComma s with
  | nil => rfl
  | cons a l ih =>
    rw [List.map_cons, List.filter_cons, List.filterMap_cons, ih]
    cases h : parseFloat (jsTrim a) <;> simp [JSNum.isNaN]

/-- C4 counterexample: at the concrete malformed-equation input the
error message the code sets is `"Invalid equation format"`, not the
claimed `"invalid equation format"`. -/
theorem c4_counterexample :
    buildSeries evalRaise cBogus ≠
      some ⟨[], [], [], some "invalid equation format"⟩ ∧
    buildSeries evalRaise cBogus =
      some ⟨[], [], [], some "Invalid equation format"⟩ := by
  constructor
  · decide
  · decide

/-- C4 (amended): for every expression-family input whose normalized
expression is non-empty, if the validation evaluation at the probe
`x = 1` raises, the result is the error `"Invalid equation format"`
with an empty series, for every evaluator — so no sampling over the
domain is attempted. -/
theorem c4_validation_failure (ev : Evaluator) (c : GraphControls)
    (h1 : equationBased c.type = true) (h2 : normExpr c ≠ "") (e : Unit)
    (h3 : ev (normExpr c) (JSNum.num 1) = Except.error e) :
    buildSeries ev c = some ⟨[], [], [], some "Invalid equation format"⟩ :=
  buildSeries_invalid_expr ev h1 h2 h3

/-- Witness for C4 at the concrete input `{type:'line',
equation:"1/0*bogus("}` with the always-raising evaluator. -/
theorem c4_witness :
    buildSeries evalRaise cBogus =
      some ⟨[], [], [], some "Invalid equation format"⟩ :=
  c4_validation_failure evalRaise cBogus (by decide) (by decide) () rfl

/-- C5 counterexample: at the concrete input `{type:'bar', data:""}`
the error message the code sets is
`"Please enter valid comma-separated numbers"`, not the claimed
`"enter valid comma-separated numbers"`. -/
theorem c5_counterexample :
    buildSeries evalZero cBarEmpty ≠
      some ⟨[], [], [], some "enter valid comma-separated numbers"⟩ ∧
    buildSeries evalZero cBarEmpty =
      some ⟨[], [], [], some "Please enter valid comma-separated numbers"⟩ := by
  constructor
  · decide
  · decide

/-- C5 (amended): for every literal-family input (type outside
{line, area, scatter, bubble, step}), an unparseable data text yields
the error `"Please enter valid comma-separated numbers"` with an empty
series; otherwise value `v` at index `i` becomes the sample with
`x = i`, `y = v` and label `"Value " + (i+1)`. -/
theorem c5_literal_family (ev : Evaluator) (c : GraphControls)
    (h1 : equationBased c.type = false) :
    (parseData c.data = [] →
      buildSeries ev c =
        some ⟨[], [], [],
          some "Please enter valid comma-separated numbers"⟩) ∧
    (∀ (i : ℕ) (v : JSNum), (parseData c.data)[i]? = some v →
      ∃ out, buildSeries ev c = some out ∧ out.error = none ∧
        out.points[i]? = some v ∧
        out.labels[i]? = some ("Value " ++ toString (i + 1)) ∧
        out.scatterData[i]? = some ((i : ℚ), v)) := by
  constructor
  · intro h2
    exact buildSeries_literal_empty ev h1 h2
  · intro i v hv
    have hne : parseData c.data ≠ [] := by
      intro hnil
      rw [hnil] at hv
      simp at hv
    refine ⟨_, buildSeries_literal ev h1 hne, rfl, hv, ?_, ?_⟩
    · simp only [List.getElem?_map, List.getElem?_enum, hv]
      rfl
    · simp only [List.getElem?_map, List.getElem?_enum, hv]
      rfl

/-- Witness for C5 at the concrete literal input with data
`"10, 20, 30, 40, 50"`, checked at index `2`. -/
theorem c5_witness :
    (parseData cBarData.data = [] →
      buildSeries evalZero cBarData =
        some ⟨[], [], [],
          some "Please enter valid comma-separated numbers"⟩) ∧
    (∀ (i : ℕ) (v : JSNum), (parseData cBarData.data)[i]? = some v →
      ∃ out, buildSeries evalZero cBarData = some out ∧ out.error = none ∧
        out.points[i]? = some v ∧
        out.labels[i]? = some ("Value " ++ toString (i + 1)) ∧
        out.scatterData[i]? = some ((i : ℚ), v)) :=
  c5_literal_family evalZero cBarData (by decide)

/-- C6: during sampling of a validated expression with positive step, a
per-sample failure (raised evaluation or non-finite value) at one domain
point only skips that point: every domain point whose evaluation
succeeds with a finite value contributes its sample to the output, the
error is cleared, and conversely every produced point comes from some
successfully evaluated domain point. -/
theorem c6_skip_is_local (ev : Evaluator) (c : GraphControls)
    (h1 : equationBased c.type = true) (h2 : normExpr c ≠ "") (v : JSNum)
    (h3 : ev (normExpr c) (JSNum.num 1) = Except.ok v) (hs : 0 < c.step)
    (x : ℚ) (hx : x ∈ domainPoints c.xMin c.xMax c.step) (s : Sample)
    (hsamp : sampleAt ev (normExpr c) x = some s) :
    ∃ out, buildSeries ev c = some out ∧ out.error = none ∧
      s.y ∈ out.points ∧ (s.x, s.y) ∈ out.scatterData ∧
      ∀ t ∈ out.points, ∃ x' ∈ domainPoints c.xMin c.xMax c.step,
        ∃ u : Sample, sampleAt ev (normExpr c) x' = some u ∧ u.y = t := by
  have hmem : s ∈ sampledList ev (normExpr c) c.xMin c.xMax c.step :=
    mem_sampledList.mpr ⟨x, hx, hsamp⟩
  have hne := List.ne_nil_of_mem hmem
  refine ⟨_, buildSeries_sampled ev h1 h2 h3 hs hne, rfl, ?_, ?_, ?_⟩
  · exact List.mem_map.mpr ⟨s, hmem, rfl⟩
  · exact List.mem_map.mpr ⟨s, hmem, rfl⟩
  · intro t ht
    obtain ⟨u, hu, rfl⟩ := List.mem_map.mp ht
    obtain ⟨x', hx', hs'⟩ := mem_sampledList.mp hu
    exact ⟨x', hx', u, hs', rfl⟩

/-- Witness for C6 at the spec example `log(x)` over `[-1, 1]` with
step `0.5`: the sample at `x = 0.5` survives although `x ≤ 0` points
are skipped. -/
theorem c6_witness :
    ∃ out, buildSeries evalLogLike cLog = some out ∧ out.error = none ∧
      (JSNum.num 1) ∈ out.points ∧
      ((1/2 : ℚ), JSNum.num 1) ∈ out.scatterData ∧
      ∀ t ∈ out.points, ∃ x' ∈ domainPoints cLog.xMin cLog.xMax cLog.step,
        ∃ u : Sample, sampleAt evalLogLike (normExpr cLog) x' = some u ∧
          u.y = t :=
  c6_skip_is_local evalLogLike cLog (by decide) (by decide)
    (JSNum.num 2) rfl (by decide) (1/2) (by decide)
    ⟨1/2, JSNum.num 1, "0.5"⟩ (by decide)

/-- C7: for a validated expression with positive step, the build output
is exactly the per-point evaluations over the arithmetic grid
`xMin, xMin + step, xMin + 2·step, …` up to and including `xMax`; every
retained sample carries the one-decimal label of its `x` and the finite
value the evaluator returned at that `x`. -/
theorem c7_sampling_grid (ev : Evaluator) (c : GraphControls)
    (h1 : equationBased c.type = true) (h2 : normExpr c ≠ "") (v : JSNum)
    (h3 : ev (normExpr c) (JSNum.num 1) = Except.ok v) (hs : 0 < c.step)
    (hne : sampledList ev (normExpr c) c.xMin c.xMax c.step ≠ []) :
    buildSeries ev c =
      some ⟨(sampledList ev (normExpr c) c.xMin c.xMax c.step).map Sample.y,
        (sampledList ev (normExpr c) c.xMin c.xMax c.step).map Sample.label,
        (sampledList ev (normExpr c) c.xMin c.xMax c.step).map
          (fun s => (s.x, s.y)),
        none⟩ ∧
    (∀ x : ℚ, x ∈ domainPoints c.xMin c.xMax c.step ↔
      ∃ k : ℕ, x = c.xMin + (k : ℚ) * c.step ∧ x ≤ c.xMax) ∧
    (∀ s ∈ sampledList ev (normExpr c) c.xMin c.xMax c.step,
      s.label = toFixed1 s.x ∧
      ∃ y, ev (normExpr c) (JSNum.num s.x) = Except.ok y ∧ s.y = y ∧
        y.isFinite = true) := by
  refine ⟨buildSeries_sampled ev h1 h2 h3 hs hne,
    fun x => mem_domainPoints hs, ?_⟩
  intro s hmem
  obtain ⟨x', hx', hsamp⟩ := mem_sampledList.mp hmem
  unfold sampleAt at hsamp
  cases hev : ev (normExpr c) (JSNum.num x') with
  | error e =>
    rw [hev] at hsamp
    exact absurd hsamp (by simp)
  | ok y =>
    rw [hev] at hsamp
    dsimp only at hsamp
    by_cases hcond : (! y.isNaN && y.isFinite) = true
    · rw [if_pos hcond] at hsamp
      injection hsamp with hs'
      subst hs'
      refine ⟨rfl, y, hev, rfl, ?_⟩
      simp only [Bool.and_eq_true] at hcond
      exact hcond.2
    · rw [if_neg hcond] at hsamp
      exact absurd hsamp (by simp)

/-- Witness for C7 at the spec example `x^2` over `[-2, 2]` with step
`1`: samples at `x ∈ {-2, -1, 0, 1, 2}` with `y ∈ {4, 1, 0, 1, 4}`,
one-decimal labels, and no error. -/
theorem c7_witness :
    buildSeries evalSq cSquare =
      some ⟨[JSNum.num 4, JSNum.num 1, JSNum.num 0, JSNum.num 1,
          JSNum.num 4],
        ["-2.0", "-1.0", "0.0", "1.0", "2.0"],
        [(-2, JSNum.num 4), (-1, JSNum.num 1), (0, JSNum.num 0),
          (1, JSNum.num 1), (2, JSNum.num 4)],
        none⟩ ∧
    (∀ x : ℚ, x ∈ domainPoints cSquare.xMin cSquare.xMax cSquare.step ↔
      ∃ k : ℕ, x = cSquare.xMin + (k : ℚ) * cSquare.step ∧
        x ≤ cSquare.xMax) := by
  have h := c7_sampling_grid evalSq cSquare (by decide) (by decide)
    (JSNum.num 1) rfl (by decide) (by decide)
  refine ⟨?_, h.2.1⟩
  rw [h.1]
  decide

/-- C8: for type `bubble` every adapted point carries the derived
radius `Math.min(Math.abs(y) * 2, 20)`; on finite values this radius is
non-negative and capped at `20`, with `y = -15` giving `20` and `y = 3`
giving `6`. -/
theorem c8_bubble_radius (equation : String) (points : List JSNum)
    (labels : List String) (sd : List (ℚ × JSNum)) (dsLabel : String)
    (ps : List BubblePoint)
    (h : chartData GraphType.bubble equation points labels sd =
      ChartDataSet.scatterLike dsLabel ps)
    (p : BubblePoint) (hp : p ∈ ps) :
    p.r = jsMin (jsMul (jsAbs p.y) (JSNum.num 2)) (JSNum.num 20) ∧
    (∀ q : ℚ,
      jsMin (jsMul (jsAbs (JSNum.num q)) (JSNum.num 2)) (JSNum.num 20) =
        JSNum.num (min (|q| * 2) 20) ∧
      0 ≤ min (|q| * 2) 20 ∧ min (|q| * 2) 20 ≤ 20) ∧
    jsMin (jsMul (jsAbs (JSNum.num (-15))) (JSNum.num 2)) (JSNum.num 20) =
      JSNum.num 20 ∧
    jsMin (jsMul (jsAbs (JSNum.num 3)) (JSNum.num 2)) (JSNum.num 20) =
      JSNum.num 6 := by
  refine ⟨?_, ?_, by decide, by decide⟩
  · simp only [chartData, ChartDataSet.scatterLike.injEq] at h
    obtain ⟨h1, h2⟩ := h
    subst h2
    obtain ⟨pr, hpr, rfl⟩ := List.mem_map.mp hp
    simp
  · intro q
    exact ⟨rfl, le_min (by positivity) (by norm_num), min_le_right _ _⟩

/-- Witness for C8 at a concrete one-point dataset with `y = 3`. -/
theorem c8_witness :
    (⟨0, JSNum.num 3, JSNum.num 6⟩ : BubblePoint).r =
      jsMin (jsMul (jsAbs (⟨0, JSNum.num 3, JSNum.num 6⟩ : BubblePoint).y)
        (JSNum.num 2)) (JSNum.num 20) ∧
    (∀ q : ℚ,
      jsMin (jsMul (jsAbs (JSNum.num q)) (JSNum.num 2)) (JSNum.num 20) =
        JSNum.num (min (|q| * 2) 20) ∧
      0 ≤ min (|q| * 2) 20 ∧ min (|q| * 2) 20 ≤ 20) ∧
    jsMin (jsMul (jsAbs (JSNum.num (-15))) (JSNum.num 2)) (JSNum.num 20) =
      JSNum.num 20 ∧
    jsMin (jsMul (jsAbs (JSNum.num 3)) (JSNum.num 2)) (JSNum.num 20) =
      JSNum.num 6 :=
  c8_bubble_radius "x" [] [] [(0, JSNum.num 3)] "x"
    [⟨0, JSNum.num 3, JSNum.num 6⟩] (by decide)
    ⟨0, JSNum.num 3, JSNum.num 6⟩ (by decide)

/-- C9: the pipeline is deterministic — two invocations whose controls
agree on all six fields (the memo dependency list: type, equation,
data, xMin, xMax, step) produce the same series, error state and chart
dataset, for any fixed evaluator. -/
theorem c9_deterministic (ev : Evaluator) (a b : GraphControls)
    (ht : a.type = b.type) (he : a.equation = b.equation)
    (hd : a.data = b.data) (hmin : a.xMin = b.xMin)
    (hmax : a.xMax = b.xMax) (hstep : a.step = b.step) :
    pipeline ev a = pipeline ev b ∧ buildSeries ev a = buildSeries ev b := by
  have hab : a = b := by
    cases a
    cases b
    simp_all
  rw [hab]
  exact ⟨rfl, rfl⟩

/-- Witness for C9: two distinct records with identical field values
give the same pipeline output. -/
theorem c9_witness :
    pipeline evalZero cBarData = pipeline evalZero cBarDataTwin ∧
      buildSeries evalZero cBarData = buildSeries evalZero cBarDataTwin :=
  c9_deterministic evalZero cBarData cBarDataTwin rfl rfl rfl rfl rfl rfl

/-- C10: for type `scatter` the adapter gives every point the fixed
radius field `r = 4`, independent of `y`; only the bubble branch uses
the derived-radius formula. -/
theorem c10_scatter_fixed_radius (equation : String) (points : List JSNum)
    (labels : List String) (sd : List (ℚ × JSNum)) (dsLabel : String)
    (ps : List BubblePoint)
    (h : chartData GraphType.scatter equation points labels sd =
      ChartDataSet.scatterLike dsLabel ps)
    (p : BubblePoint) (hp : p ∈ ps) :
    p.r = JSNum.num 4 := by
  simp only [chartData, ChartDataSet.scatterLike.injEq] at h
  obtain ⟨h1, h2⟩ := h
  subst h2
  obtain ⟨pr, hpr, rfl⟩ := List.mem_map.mp hp
  simp

/-- Witness for C10 at a concrete one-point dataset with `y = 7`. -/
theorem c10_witness :
    (⟨2, JSNum.num 7, JSNum.num 4⟩ : BubblePoint).r = JSNum.num 4 :=
  c10_scatter_fixed_radius "x" [] [] [(2, JSNum.num 7)] "x"
    [⟨2, JSNum.num 7, JSNum.num 4⟩] (by decide)
    ⟨2, JSNum.num 7, JSNum.num 4⟩ (by decide)

end GraphPlotter
